import Mathlib

/-!
Verification model of the mail-relay daily-summary engine
(`postfix_daily_summary.py`).

The Python engine is shallowly embedded as executable Lean definitions:

* Python `Counter` / `dict` objects become association lists over `String`
  (or `ℕ`) keys, with `incr` modelling `counter[k] += 1` and `setA`
  modelling `d[k] = v` (replace-in-place or append, matching Python dict
  insertion-order semantics).
* Python floats become `ℚ`.
* The regular-expression extractions performed on each raw log line are
  abstracted into the fields of `RawLine`: each field holds exactly the
  result the corresponding regex / substring test produces on that line
  (`none` when the pattern does not match).  All control flow that
  consumes those extraction results is translated faithfully.
* File I/O becomes the `FileData` datatype; `FileNotFoundError` is the
  `missing` constructor and any other I/O failure is `ioError`.
-/

namespace MailSummary

/-- Association-list lookup (first binding wins), modelling Python
`dict.get` / `dict[k]`. -/
def lookupA {β : Type} (k : String) : List (String × β) → Option β
  | [] => none
  | (a, b) :: t => if a = k then some b else lookupA k t

/-- Association-list assignment `d[k] = v`: replaces the value in place if
the key is present, otherwise appends — Python dicts keep the original
insertion position on re-assignment. -/
def setA {β : Type} (l : List (String × β)) (k : String) (v : β) : List (String × β) :=
  if l.any (fun p => decide (p.1 = k)) then
    l.map (fun p => if p.1 = k then (k, v) else p)
  else l ++ [(k, v)]

/-- Counter increment `c[k] += 1` for a `collections.Counter` modelled as an
association list. -/
def incr {α : Type} [DecidableEq α] (c : List (α × ℕ)) (k : α) : List (α × ℕ) :=
  if c.any (fun p => decide (p.1 = k)) then
    c.map (fun p => if p.1 = k then (p.1, p.2 + 1) else p)
  else c ++ [(k, 1)]

/-- Lexicographic comparison of character lists; Python's `<=` on strings
compares code points left to right. -/
def chLe : List Char → List Char → Bool
  | [], _ => true
  | _ :: _, [] => false
  | a :: as, b :: bs => if a < b then true else if a = b then chLe as bs else false

/-- Python string comparison `a <= b` (lexicographic on code points); on
ISO `YYYY-MM-DD` strings this coincides with chronological order. -/
def strLe (a b : String) : Bool := chLe a.data b.data

/-- Insert into a `strLe`-sorted list (helper for `sortKeys`). -/
def insSorted (x : String) : List String → List String
  | [] => [x]
  | y :: ys => if strLe x y then x :: y :: ys else y :: insSorted x ys

/-- Python `sorted` on a list of strings (insertion sort; dict keys are
distinct so stability is irrelevant). -/
def sortKeys : List String → List String
  | [] => []
  | x :: xs => insSorted x (sortKeys xs)

/-- Python `str.split(c)` on a single-character separator, over the
character list of the string. -/
def splitOnChar (c : Char) : List Char → List (List Char)
  | [] => [[]]
  | a :: as =>
    match splitOnChar c as with
    | [] => if a = c then [[], []] else [[a]]
    | h :: t => if a = c then [] :: h :: t else (a :: h) :: t

/-- Source `get_domain` (lines 194-198): returns `"unknown"` for an empty
address or one without `'@'`, otherwise everything after the last `'@'`
(`email.split('@')[-1]`). -/
def get_domain (email : String) : String :=
  if email.data.isEmpty || !(email.data.contains '@') then "unknown"
  else String.mk ((splitOnChar '@' email.data).getLastD [])

/-- The internal domain hardcoded in the source (`"eusd.org"`, lines 493
and 614). -/
def internalDomain : String := "eusd.org"

/-- Does `pat` occur at the head of `l`? (helper for substring search). -/
def leadsWith {α : Type} [DecidableEq α] : List α → List α → Bool
  | [], _ => true
  | _ :: _, [] => false
  | a :: as, b :: bs => if a = b then leadsWith as bs else false

/-- Does `pat` occur anywhere inside `l`? -/
def hasSub {α : Type} [DecidableEq α] (pat : List α) : List α → Bool
  | [] => decide (pat = [])
  | a :: as => leadsWith pat (a :: as) || hasSub pat as

/-- Python substring test `pat in s`. -/
def strHasSub (s pat : String) : Bool := hasSub pat.data s.data

/-- Mean of a list of rationals, `sum(l)/len(l)` (callers guard against
the empty list exactly where the Python does). -/
def mean (l : List ℚ) : ℚ := l.sum / (l.length : ℚ)

/-- One raw log line, with every regex / substring extraction the engine
performs on it pre-computed into a field.  Each field is exactly the
result of the pattern named in its comment; `none` means "no match". -/
structure RawLine where
  /-- leading date of the line; `line.startswith(today)` in
  `log_lines_today` (line 189) holds iff this equals `today`. -/
  dateStr : String
  /-- pass 1, line 380: `([A-Za-z0-9]+): client=([^[]+)\[` →
  `(message_id, hostname)`. -/
  clientMatch : Option (String × String) := none
  /-- pass 1, line 388: `postfix/pickup[...]: (id): uid=` → message id. -/
  pickupMatch : Option String := none
  /-- pass 1, line 395: `(id): from=<...>, size=(\d+)` →
  `(message_id, size)`. -/
  sizeMatch : Option (String × ℕ) := none
  /-- pass 1, line 401: `"authentication failed" in line.lower() or
  "sasl login failed" in line.lower()`. -/
  authFail : Bool := false
  /-- pass 1, line 402: `user=([^,\s]+)` → user. -/
  authUser : Option String := none
  /-- pass 1, lines 409-411: rate-limit line (`"too many"` and
  `"reject"`) with an extractable `client=` — `some client`; a rate-limit
  line without a client match does nothing, like `none`. -/
  rateLimit : Option String := none
  /-- pass 2, line 419: `(\d{4}-\d{2}-\d{2})T(\d{2}):` → hour. -/
  hour : Option ℕ := none
  /-- pass 2, line 424: `postfix/smtp[...]: ([A-Za-z0-9]+):` →
  message id. -/
  smtpId : Option String := none
  /-- pass 2, line 429: `" status=sent " in line`. -/
  statusSent : Bool := false
  /-- pass 2, line 497: `"status=deferred" in line`. -/
  statusDeferred : Bool := false
  /-- pass 2, line 530: `"status=bounced" in line or "status=reject" in
  line`. -/
  statusBounced : Bool := false
  /-- `from=<([^>]*)>` (lines 433, 500). -/
  sender : Option String := none
  /-- `to=<([^>]*)>` (lines 434, 499, 532). -/
  recipient : Option String := none
  /-- `delay=(\d+\.?\d*)` (line 436), as an exact rational. -/
  delay : Option ℚ := none
  /-- `line.strip()`, the text stored by `errors.append` (lines 527,
  552). -/
  text : String := ""
  deriving DecidableEq

/-- One entry of the configured source list: a file that is absent
(raising `FileNotFoundError`), a file whose read raises any other
I/O error, or a readable file with its (date-tagged, pre-parsed)
lines. -/
inductive FileData
  | missing
  | ioError
  | content (ls : List RawLine)
  deriving DecidableEq

/-- The only fatal read failure of the source reader. -/
inductive ReadErr
  | sourceReadError
  deriving DecidableEq

/-- Source `log_lines_today` (lines 183-192): yields the lines whose date
prefix matches `day`; `FileNotFoundError` is swallowed (yielding
nothing); any other I/O failure escapes to the caller. -/
def log_lines_today (f : FileData) (day : String) : Except ReadErr (List RawLine) :=
  match f with
  | .missing => .ok []
  | .ioError => .error .sourceReadError
  | .content ls => .ok (ls.filter (fun l => decide (l.dateStr = day)))

/-- One pass's read order (lines 376-378 and 415-417): for each file in
the source list, first the lines matching `today`, then the lines
matching `yesterday`.  An I/O failure anywhere escapes the whole loop —
`main` installs no handler around either pass. -/
def readAll (today yesterday : String) : List FileData → Except ReadErr (List RawLine)
  | [] => .ok []
  | f :: fs =>
    match log_lines_today f today with
    | .error e => .error e
    | .ok l1 =>
      match log_lines_today f yesterday with
      | .error e => .error e
      | .ok l2 =>
        match readAll today yesterday fs with
        | .error e => .error e
        | .ok rest => .ok (l1 ++ l2 ++ rest)

/-- Pass-1 accumulator state (lines 344-364, restricted to the
structures pass 1 writes). -/
structure P1State where
  message_clients : List (String × String) := []
  sending_hosts : List (String × ℕ) := []
  message_sizes : List (String × ℕ) := []
  auth_failures : List (String × ℕ) := []
  rate_limit_violations : List (String × ℕ) := []
  deriving DecidableEq

def initP1 : P1State := {}

/-- Pass-1 body (lines 379-412): the five independent extractions on one
line. -/
def processLine1 (st : P1State) (l : RawLine) : P1State :=
  let st := match l.clientMatch with
    | some (mid, host) =>
      { st with message_clients := setA st.message_clients mid host,
                sending_hosts := incr st.sending_hosts host }
    | none => st
  let st := match l.pickupMatch with
    | some mid =>
      { st with message_clients := setA st.message_clients mid "localhost",
                sending_hosts := incr st.sending_hosts "localhost" }
    | none => st
  let st := match l.sizeMatch with
    | some (mid, sz) => { st with message_sizes := setA st.message_sizes mid sz }
    | none => st
  let st :=
    if l.authFail then
      match l.authUser with
      | some u => { st with auth_failures := incr st.auth_failures u }
      | none => { st with auth_failures := incr st.auth_failures "unknown" }
    else st
  match l.rateLimit with
  | some c => { st with rate_limit_violations := incr st.rate_limit_violations c }
  | none => st

/-- Pass-2 accumulator state (lines 340-363, restricted to the
structures the pass-2 loop writes and the final metrics read). -/
structure P2State where
  sent_count : ℕ := 0
  deferred_count : ℕ := 0
  bounced_count : ℕ := 0
  total_size : ℕ := 0
  errors : List String := []
  delivery_times : List ℚ := []
  queue_times : List ℚ := []
  mail_loops : List String := []
  suspicious_senders : List (String × ℕ) := []
  hourly_traffic : List (ℕ × ℕ) := []
  deriving DecidableEq

def initP2 : P2State := {}

/-- Mail-loop detection on a sent line (lines 490-494): fires only when
the parsed delay is below `0.1` seconds; a self-loop takes priority over
the internal-domain check. -/
def mailLoopCheck (sender recipient : String) (queue_time : ℚ) : Option String :=
  if queue_time < 1/10 then
    if sender = recipient then some ("Self-loop: " ++ sender)
    else if get_domain sender = get_domain recipient ∧ get_domain sender = internalDomain then
      some ("Internal loop: " ++ sender ++ " → " ++ recipient)
    else none
  else none

/-- Hour histogram update on a sent line (lines 431-432): only when the
timestamp regex matched. -/
def addHour (st : P2State) : Option ℕ → P2State
  | some h => { st with hourly_traffic := incr st.hourly_traffic h }
  | none => st

/-- Sender bookkeeping on a sent line (lines 438-444, restricted to
`suspicious_senders`): only when `from=<...>` matched. -/
def addSender (st : P2State) : Option String → P2State
  | some s => { st with suspicious_senders := incr st.suspicious_senders s }
  | none => st

/-- Size accumulation on a sent line (lines 459-461): only when the smtp
message id was extracted and pass 1 recorded a size for it. -/
def addSize (sizes : List (String × ℕ)) (st : P2State) : Option String → P2State
  | some mid =>
    match lookupA mid sizes with
    | some sz => { st with total_size := st.total_size + sz }
    | none => st
  | none => st

/-- Delay handling on a sent line (lines 477-494): record the queue /
delivery time, then run the mail-loop check, which needs both a sender
and a recipient. -/
def addDelay (st : P2State) (sm rm : Option String) : Option ℚ → P2State
  | none => st
  | some d =>
    let st := { st with queue_times := st.queue_times ++ [d],
                        delivery_times := st.delivery_times ++ [d] }
    match sm, rm with
    | some s, some r =>
      { st with mail_loops := st.mail_loops ++ (mailLoopCheck s r d).toList }
    | _, _ => st

/-- The `" status=sent "` branch of pass 2 (lines 429-494). -/
def processSent (sizes : List (String × ℕ)) (st : P2State) (l : RawLine) : P2State :=
  let st := { st with sent_count := st.sent_count + 1 }
  let st := addHour st l.hour
  let st := addSender st l.sender
  let st := addSize sizes st l.smtpId
  addDelay st l.sender l.recipient l.delay

/-- Pass-2 body (lines 429-552): the `if/elif/elif` classification of one
line.  Frequency tables that only feed report rendering
(`recipients`, `recipient_domains`, `recipient_hosts`,
`sender_recipient_pairs`, `retry_patterns`, `error_categories`,
`relay_performance`, `size_distribution`) are omitted; no claim reads
them. -/
def processLine (sizes : List (String × ℕ)) (st : P2State) (l : RawLine) : P2State :=
  if l.statusSent then processSent sizes st l
  else if l.statusDeferred then
    { st with deferred_count := st.deferred_count + 1,
              errors := st.errors ++ [l.text] }
  else if l.statusBounced then
    { st with bounced_count := st.bounced_count + 1,
              errors := st.errors ++ [l.text] }
  else st

/-- Is the line classified as an error line (deferred or
bounced/rejected, after the `status=sent` check failed)?  Exactly these
lines are appended to `errors` (lines 527 and 552). -/
def errLine (l : RawLine) : Bool :=
  !l.statusSent && (l.statusDeferred || l.statusBounced)

/-- Trend direction: `'↑'` / `'↓'` / `'→'` in the source (line 250). -/
inductive Direction
  | up
  | down
  | flat
  deriving DecidableEq

/-- One trend record (lines 249-254). -/
structure Trend where
  direction : Direction
  percentage : ℚ
  recent_avg : ℚ
  baseline_avg : ℚ
  deriving DecidableEq

/-- The persisted history: date string → metric map (the JSON document of
`HISTORY_FILE`). -/
def History : Type := List (String × List (String × ℚ))

/-- Direction selection (line 250): `'↑' if trend_pct > 5 else '↓' if
trend_pct < -5 else '→'`. -/
def dirOf (pct : ℚ) : Direction :=
  if pct > 5 then .up else if pct < -5 then .down else .flat

/-- Trend computation for one metric's value series (lines 243-254):
requires at least two values; recent average over the last three values,
baseline over the rest (or the first value when only up to three exist);
skipped entirely unless the baseline is positive. -/
def trendFor (values : List ℚ) : Option Trend :=
  if values.length ≥ 2 then
    let recent := values.drop (values.length - 3)
    let recent_avg := mean recent
    let older_avg :=
      if values.length > 3 then mean (values.take (values.length - 3))
      else values.headD 0
    if older_avg > 0 then
      let trend_pct := (recent_avg - older_avg) / older_avg * 100
      some ⟨dirOf trend_pct, trend_pct, recent_avg, older_avg⟩
    else none
  else none

/-- The four tracked metrics (line 241). -/
def trendMetrics : List String :=
  ["sent_count", "success_rate", "avg_queue_time", "total_size"]

/-- Source `calculate_trends` (lines 231-256): needs at least two history
entries; looks at the last eight sorted dates; per metric, collects the
values present and produces a trend when `trendFor` does. -/
def calculate_trends (history : History) : List (String × Trend) :=
  if history.length < 2 then []
  else
    let dates := (sortKeys (history.map (·.1))).drop (history.length - 8)
    if dates.length < 2 then []
    else
      trendMetrics.filterMap (fun metric =>
        let values := dates.filterMap (fun d =>
          match lookupA d history with
          | some m => lookupA metric m
          | none => none)
        (trendFor values).map (fun t => (metric, t)))

/-- Source `save_historical_data` (lines 216-229): store today's stats
under today's key, then keep only the keys at or after the 30-day cutoff
(`k >= cutoff_date`, Python string comparison).  `cutoff` is
`(now - 30 days)` formatted `YYYY-MM-DD`. -/
def save_historical_data (todayKey cutoff : String) (history : History)
    (today_stats : List (String × ℚ)) : History :=
  (setA history todayKey today_stats).filter (fun p => strLe cutoff p.1)

/-- The configurable `ALERT_THRESHOLDS` dict (lines 25-34). -/
structure Thresholds where
  min_success_rate : ℚ
  max_queue_time : ℚ
  max_auth_failures : ℕ
  high_volume_threshold_pct : ℚ
  max_hourly_volume : ℕ
  min_hourly_volume : ℕ
  max_avg_size : ℚ
  max_defer_rate : ℚ
  deriving DecidableEq

/-- The configured values of `ALERT_THRESHOLDS` (lines 25-34). -/
def defaultThresholds : Thresholds where
  min_success_rate := 95
  max_queue_time := 30
  max_auth_failures := 50
  high_volume_threshold_pct := 1/20
  max_hourly_volume := 500
  min_hourly_volume := 10
  max_avg_size := 10485760
  max_defer_rate := 5

/-- One alert, tagged by which of the ten rules fired (lines 584-609);
the numeric payload is the value interpolated into the message. -/
inductive Alert
  | lowSuccessRate (rate : ℚ)
  | highQueueTime (t : ℚ)
  | authFailures (n : ℕ)
  | mailLoops (n : ℕ)
  | successRateDeclining (pct : ℚ)
  | queueTimeIncreasing (pct : ℚ)
  | peakHourVolume (n : ℕ)
  | highDeferRate (r : ℚ)
  | largeAvgSize (s : ℚ)
  | highThroughput (t : ℚ)
  deriving DecidableEq

/-- The alert evaluator (lines 584-609), in source order.  `authTotal` is
`sum(auth_failures.values())`, `loopCount` is `len(mail_loops)`. -/
def computeAlerts (thr : Thresholds) (hvm : Bool) (success_rate avg_queue_time : ℚ)
    (authTotal loopCount : ℕ) (trends : List (String × Trend))
    (max_hourly : ℕ) (defer_rate avg_message_size throughput_per_minute : ℚ) :
    List Alert :=
  let a := if success_rate < thr.min_success_rate then [Alert.lowSuccessRate success_rate] else []
  let a := a ++ (if avg_queue_time > thr.max_queue_time then [Alert.highQueueTime avg_queue_time] else [])
  let a := a ++ (if authTotal > thr.max_auth_failures then [Alert.authFailures authTotal] else [])
  let a := a ++ (if loopCount ≠ 0 then [Alert.mailLoops loopCount] else [])
  let a := a ++ (match lookupA "success_rate" trends with
    | some t => if t.percentage < -10 then [Alert.successRateDeclining t.percentage] else []
    | none => [])
  let a := a ++ (match lookupA "avg_queue_time" trends with
    | some t => if t.percentage > 50 then [Alert.queueTimeIncreasing t.percentage] else []
    | none => [])
  a ++ (if hvm then
      (if max_hourly > thr.max_hourly_volume then [Alert.peakHourVolume max_hourly] else [])
      ++ (if defer_rate > thr.max_defer_rate then [Alert.highDeferRate defer_rate] else [])
      ++ (if avg_message_size > thr.max_avg_size then [Alert.largeAvgSize avg_message_size] else [])
      ++ (if throughput_per_minute > 100 then [Alert.highThroughput throughput_per_minute] else [])
    else [])

/-- High-volume sender flagging (lines 611-614): strictly above
`max(50, total_messages * high_volume_threshold_pct)` sent messages AND
the Python substring test `"@eusd.org" in sender`. -/
def compromisedCandidates (pct : ℚ) (total_messages : ℕ)
    (suspicious_senders : List (String × ℕ)) : List String :=
  let high_volume_threshold := max (50 : ℚ) ((total_messages : ℚ) * pct)
  (suspicious_senders.filter
    (fun p => decide (high_volume_threshold < (p.2 : ℚ)) && strHasSub p.1 "@eusd.org")).map (·.1)

/-- The run's derived metrics and retained collections (lines 554-627). -/
structure Summary where
  sent_count : ℕ
  deferred_count : ℕ
  bounced_count : ℕ
  total_messages : ℕ
  total_size : ℕ
  success_rate : ℚ
  avg_delivery_time : ℚ
  avg_queue_time : ℚ
  max_queue_time : ℚ
  avg_message_size : ℚ
  defer_rate : ℚ
  max_hourly : ℕ
  min_hourly : ℕ
  throughput_per_minute : ℚ
  health_score : ℚ
  auth_failures_count : ℕ
  errors : List String
  mail_loops : List String
  trends : List (String × Trend)
  alerts : List Alert
  compromised_candidates : List String
  deriving DecidableEq

/-- The metric computation after both passes (lines 554-614), assembled
from the final pass-1 and pass-2 states. -/
def mkSummary (thr : Thresholds) (hvm : Bool) (history : History)
    (p1 : P1State) (st : P2State) : Summary :=
  let avg_delivery_time :=
    if st.delivery_times.isEmpty then 0 else mean st.delivery_times
  let avg_queue_time :=
    if st.queue_times.isEmpty then 0 else mean st.queue_times
  let max_queue_time :=
    match st.queue_times with
    | [] => 0
    | x :: xs => xs.foldl max x
  let total_messages := st.sent_count + st.deferred_count + st.bounced_count
  let success_rate :=
    if 0 < total_messages then (st.sent_count : ℚ) / (total_messages : ℚ) * 100 else 0
  let trends := calculate_trends history
  let avg_message_size :=
    if 0 < total_messages then (st.total_size : ℚ) / (total_messages : ℚ) else 0
  let defer_rate :=
    if 0 < total_messages then (st.deferred_count : ℚ) / (total_messages : ℚ) * 100 else 0
  let hourVals := st.hourly_traffic.map (·.2)
  let max_hourly := match hourVals with | [] => 0 | x :: xs => xs.foldl max x
  let min_hourly := match hourVals with | [] => 0 | x :: xs => xs.foldl min x
  let throughput_per_minute :=
    if 0 < total_messages then (total_messages : ℚ) / (24 * 60) else 0
  let authTotal := (p1.auth_failures.map (·.2)).sum
  let hs : ℚ := 100
  let hs := if success_rate < 95 then hs - (95 - success_rate) * 2 else hs
  let hs := if avg_queue_time > 30 then hs - min (avg_queue_time - 30) 20 else hs
  let hs := if ¬ p1.auth_failures.isEmpty then
      hs - min ((p1.auth_failures.length : ℚ) * 5) 30 else hs
  let hs := if ¬ st.mail_loops.isEmpty then hs - (st.mail_loops.length : ℚ) * 10 else hs
  let health_score := max 0 hs
  let alerts := computeAlerts thr hvm success_rate avg_queue_time authTotal
    st.mail_loops.length trends max_hourly defer_rate avg_message_size throughput_per_minute
  { sent_count := st.sent_count
    deferred_count := st.deferred_count
    bounced_count := st.bounced_count
    total_messages := total_messages
    total_size := st.total_size
    success_rate := success_rate
    avg_delivery_time := avg_delivery_time
    avg_queue_time := avg_queue_time
    max_queue_time := max_queue_time
    avg_message_size := avg_message_size
    defer_rate := defer_rate
    max_hourly := max_hourly
    min_hourly := min_hourly
    throughput_per_minute := throughput_per_minute
    health_score := health_score
    auth_failures_count := authTotal
    errors := st.errors
    mail_loops := st.mail_loops
    trends := trends
    alerts := alerts
    compromised_candidates :=
      compromisedCandidates thr.high_volume_threshold_pct total_messages st.suspicious_senders }

/-- The `today_stats` dict persisted to history (lines 617-627). -/
def statsMap (s : Summary) : List (String × ℚ) :=
  [("sent_count", (s.sent_count : ℚ)),
   ("deferred_count", (s.deferred_count : ℚ)),
   ("bounced_count", (s.bounced_count : ℚ)),
   ("success_rate", s.success_rate),
   ("avg_queue_time", s.avg_queue_time),
   ("total_size", (s.total_size : ℚ)),
   ("health_score", s.health_score),
   ("auth_failures_count", (s.auth_failures_count : ℚ)),
   ("mail_loops_count", (s.mail_loops.length : ℚ))]

/-- Everything a run hands to the presentation / persistence layer. -/
structure RunOutput where
  summary : Summary
  today_stats : List (String × ℚ)
  saved_history : History

/-- The pure part of `main` after both passes succeeded: fold pass 1 over
the lines, fold pass 2 (with the completed size index) over the lines,
derive the metrics, and build the persisted history. -/
def runPure (thr : Thresholds) (hvm : Bool) (history : History)
    (todayKey cutoff : String) (lines1 lines2 : List RawLine) : RunOutput :=
  let p1 := lines1.foldl processLine1 initP1
  let st := lines2.foldl (processLine p1.message_sizes) initP2
  let s := mkSummary thr hvm history p1 st
  let ts := statsMap s
  { summary := s
    today_stats := ts
    saved_history := save_historical_data todayKey cutoff history ts }

/-- Source `main` (lines 327-630), up to the hand-off to rendering /
transport: two passes over the same immutable source list (each pass
re-reads every file; `FileData` is pure, so both reads yield the same
lines), then metric derivation and the history write.  Any read failure
other than a missing file escapes `main`, which installs no handler:
the whole run dies with no output. -/
def runEngine (thr : Thresholds) (hvm : Bool) (history : History)
    (today yesterday todayKey cutoff : String) (files : List FileData) :
    Except ReadErr RunOutput :=
  match readAll today yesterday files with
  | .error e => .error e
  | .ok lines => .ok (runPure thr hvm history todayKey cutoff lines lines)

/-! ### Basic lemmas about the pass-2 step -/

theorem addHour_sent_count (st : P2State) (o : Option ℕ) :
    (addHour st o).sent_count = st.sent_count := by cases o <;> rfl

theorem addSender_sent_count (st : P2State) (o : Option String) :
    (addSender st o).sent_count = st.sent_count := by cases o <;> rfl

theorem addSize_sent_count (z : List (String × ℕ)) (st : P2State) (o : Option String) :
    (addSize z st o).sent_count = st.sent_count := by
  cases o with
  | none => rfl
  | some mid => cases h : lookupA mid z <;> simp [addSize, h]

theorem addDelay_sent_count (st : P2State) (sm rm : Option String) (o : Option ℚ) :
    (addDelay st sm rm o).sent_count = st.sent_count := by
  cases o with
  | none => rfl
  | some d => cases sm <;> cases rm <;> rfl

theorem addHour_queue_times (st : P2State) (o : Option ℕ) :
    (addHour st o).queue_times = st.queue_times := by cases o <;> rfl

theorem addSender_queue_times (st : P2State) (o : Option String) :
    (addSender st o).queue_times = st.queue_times := by cases o <;> rfl

theorem addSize_queue_times (z : List (String × ℕ)) (st : P2State) (o : Option String) :
    (addSize z st o).queue_times = st.queue_times := by
  cases o with
  | none => rfl
  | some mid => cases h : lookupA mid z <;> simp [addSize, h]

theorem addHour_errors (st : P2State) (o : Option ℕ) :
    (addHour st o).errors = st.errors := by cases o <;> rfl

theorem addSender_errors (st : P2State) (o : Option String) :
    (addSender st o).errors = st.errors := by cases o <;> rfl

theorem addSize_errors (z : List (String × ℕ)) (st : P2State) (o : Option String) :
    (addSize z st o).errors = st.errors := by
  cases o with
  | none => rfl
  | some mid => cases h : lookupA mid z <;> simp [addSize, h]

theorem addDelay_errors (st : P2State) (sm rm : Option String) (o : Option ℚ) :
    (addDelay st sm rm o).errors = st.errors := by
  cases o with
  | none => rfl
  | some d => cases sm <;> cases rm <;> rfl

theorem addHour_mail_loops (st : P2State) (o : Option ℕ) :
    (addHour st o).mail_loops = st.mail_loops := by cases o <;> rfl

theorem addSender_mail_loops (st : P2State) (o : Option String) :
    (addSender st o).mail_loops = st.mail_loops := by cases o <;> rfl

theorem addSize_mail_loops (z : List (String × ℕ)) (st : P2State) (o : Option String) :
    (addSize z st o).mail_loops = st.mail_loops := by
  cases o with
  | none => rfl
  | some mid => cases h : lookupA mid z <;> simp [addSize, h]

theorem processSent_sent_count (z : List (String × ℕ)) (st : P2State) (l : RawLine) :
    (processSent z st l).sent_count = st.sent_count + 1 := by
  simp [processSent, addDelay_sent_count, addSize_sent_count, addSender_sent_count,
    addHour_sent_count]

theorem processSent_errors (z : List (String × ℕ)) (st : P2State) (l : RawLine) :
    (processSent z st l).errors = st.errors := by
  simp [processSent, addDelay_errors, addSize_errors, addSender_errors, addHour_errors]

/-- On a sent line carrying a sender, a recipient and a parsed delay, the
mail-loop list is extended by exactly the result of `mailLoopCheck`. -/
theorem processSent_mail_loops (z : List (String × ℕ)) (st : P2State) (l : RawLine)
    (s r : String) (d : ℚ) (hsm : l.sender = some s) (hrm : l.recipient = some r)
    (hd : l.delay = some d) :
    (processSent z st l).mail_loops = st.mail_loops ++ (mailLoopCheck s r d).toList := by
  simp [processSent, addDelay, hsm, hrm, hd, addSize_mail_loops, addSender_mail_loops,
    addHour_mail_loops]

theorem sent_le_processLine (z : List (String × ℕ)) (st : P2State) (l : RawLine) :
    st.sent_count ≤ (processLine z st l).sent_count := by
  unfold processLine
  split
  · rw [processSent_sent_count]; omega
  · split
    · exact Nat.le_refl _
    · split <;> exact Nat.le_refl _

theorem queue_times_of_sent_eq (z : List (String × ℕ)) (st : P2State) (l : RawLine)
    (h : (processLine z st l).sent_count = st.sent_count) :
    (processLine z st l).queue_times = st.queue_times := by
  unfold processLine at h ⊢
  by_cases hs : l.statusSent = true
  · rw [if_pos hs, processSent_sent_count] at h; omega
  · rw [if_neg hs] at h ⊢
    by_cases hd : l.statusDeferred = true
    · rw [if_pos hd]
    · rw [if_neg hd] at h ⊢
      by_cases hb : l.statusBounced = true
      · rw [if_pos hb]
      · rw [if_neg hb]

theorem processLine_errors_length (z : List (String × ℕ)) (st : P2State) (l : RawLine) :
    (processLine z st l).errors.length
      = st.errors.length + (if errLine l then 1 else 0) := by
  unfold processLine errLine
  cases hs : l.statusSent <;> cases hd : l.statusDeferred <;> cases hb : l.statusBounced <;>
    simp [processSent_errors]

/-! ### Lemmas about the pass-2 fold -/

theorem sent_le_foldl (z : List (String × ℕ)) :
    ∀ (lines : List RawLine) (st : P2State),
      st.sent_count ≤ (lines.foldl (processLine z) st).sent_count := by
  intro lines
  induction lines with
  | nil => intro st; exact Nat.le_refl _
  | cons l ls ih =>
    intro st
    exact Nat.le_trans (sent_le_processLine z st l) (ih (processLine z st l))

theorem foldl_queue_times_of_sent_eq (z : List (String × ℕ)) :
    ∀ (lines : List RawLine) (st : P2State),
      (lines.foldl (processLine z) st).sent_count = st.sent_count →
      (lines.foldl (processLine z) st).queue_times = st.queue_times := by
  intro lines
  induction lines with
  | nil => intro st _; rfl
  | cons l ls ih =>
    intro st h
    simp only [List.foldl_cons] at h ⊢
    have h1 : (processLine z st l).sent_count = st.sent_count := by
      have := sent_le_processLine z st l
      have := sent_le_foldl z ls (processLine z st l)
      omega
    have h2 : (ls.foldl (processLine z) (processLine z st l)).sent_count
        = (processLine z st l).sent_count := by omega
    rw [ih (processLine z st l) h2, queue_times_of_sent_eq z st l h1]

theorem foldl_errors_length (z : List (String × ℕ)) :
    ∀ (lines : List RawLine) (st : P2State),
      (lines.foldl (processLine z) st).errors.length
        = st.errors.length + lines.countP errLine := by
  intro lines
  induction lines with
  | nil => intro st; simp
  | cons l ls ih =>
    intro st
    simp only [List.foldl_cons, List.countP_cons]
    rw [ih (processLine z st l), processLine_errors_length]
    by_cases h : errLine l
    · simp only [h, if_true]; omega
    · simp only [h, if_false]; omega

/-! ### Projections of the summary -/

theorem mkSummary_total_messages (thr : Thresholds) (hvm : Bool) (history : History)
    (p1 : P1State) (st : P2State) :
    (mkSummary thr hvm history p1 st).total_messages
      = st.sent_count + st.deferred_count + st.bounced_count := rfl

theorem mkSummary_success_rate (thr : Thresholds) (hvm : Bool) (history : History)
    (p1 : P1State) (st : P2State) :
    (mkSummary thr hvm history p1 st).success_rate
      = if 0 < st.sent_count + st.deferred_count + st.bounced_count then
          (st.sent_count : ℚ) / ((st.sent_count + st.deferred_count + st.bounced_count : ℕ) : ℚ) * 100
        else 0 := rfl

theorem mkSummary_avg_queue_time (thr : Thresholds) (hvm : Bool) (history : History)
    (p1 : P1State) (st : P2State) :
    (mkSummary thr hvm history p1 st).avg_queue_time
      = if st.queue_times.isEmpty then 0 else mean st.queue_times := rfl

theorem mkSummary_sent_count (thr : Thresholds) (hvm : Bool) (history : History)
    (p1 : P1State) (st : P2State) :
    (mkSummary thr hvm history p1 st).sent_count = st.sent_count := rfl

theorem mkSummary_errors (thr : Thresholds) (hvm : Bool) (history : History)
    (p1 : P1State) (st : P2State) :
    (mkSummary thr hvm history p1 st).errors = st.errors := rfl

theorem runPure_summary (thr : Thresholds) (hvm : Bool) (history : History)
    (tk ck : String) (l1 l2 : List RawLine) :
    (runPure thr hvm history tk ck l1 l2).summary
      = mkSummary thr hvm history (l1.foldl processLine1 initP1)
          (l2.foldl (processLine (l1.foldl processLine1 initP1).message_sizes) initP2) := rfl

theorem mkSummary_deferred_count (thr : Thresholds) (hvm : Bool) (history : History)
    (p1 : P1State) (st : P2State) :
    (mkSummary thr hvm history p1 st).deferred_count = st.deferred_count := rfl

theorem mkSummary_bounced_count (thr : Thresholds) (hvm : Bool) (history : History)
    (p1 : P1State) (st : P2State) :
    (mkSummary thr hvm history p1 st).bounced_count = st.bounced_count := rfl

/-- Inversion of a successful run. -/
theorem runEngine_ok (thr : Thresholds) (hvm : Bool) (history : History)
    (today yesterday tk ck : String) (files : List FileData) (out : RunOutput)
    (h : runEngine thr hvm history today yesterday tk ck files = .ok out) :
    ∃ lines, readAll today yesterday files = .ok lines ∧
      out = runPure thr hvm history tk ck lines lines := by
  unfold runEngine at h
  cases hr : readAll today yesterday files with
  | error e => rw [hr] at h; exact absurd h (by simp)
  | ok lines =>
    rw [hr] at h
    exact ⟨lines, rfl, by injection h with h; exact h.symm⟩

/-! ### Claim C1 -/

/-- C1: at the end of every run of the engine, the status counters sum to
`total_messages`, and the computed `success_rate` lies in `[0, 100]`. -/
theorem claim_C1 (thr : Thresholds) (hvm : Bool) (history : History)
    (today yesterday tk ck : String) (files : List FileData) (out : RunOutput)
    (h : runEngine thr hvm history today yesterday tk ck files = .ok out) :
    out.summary.sent_count + out.summary.deferred_count + out.summary.bounced_count
        = out.summary.total_messages
      ∧ 0 ≤ out.summary.success_rate ∧ out.summary.success_rate ≤ 100 := by
  obtain ⟨lines, -, rfl⟩ := runEngine_ok _ _ _ _ _ _ _ _ _ h
  rw [runPure_summary]
  refine ⟨(mkSummary_total_messages _ _ _ _ _).symm, ?_, ?_⟩
  · rw [mkSummary_success_rate]
    split
    · positivity
    · exact le_refl 0
  · rw [mkSummary_success_rate]
    set st := (lines.foldl
      (processLine (lines.foldl processLine1 initP1).message_sizes) initP2) with hst
    split
    · rename_i hT
      have hle : (st.sent_count : ℚ)
          ≤ ((st.sent_count + st.deferred_count + st.bounced_count : ℕ) : ℚ) :=
        Nat.cast_le.mpr (by omega)
      have hpos : (0 : ℚ) < ((st.sent_count + st.deferred_count + st.bounced_count : ℕ) : ℚ) := by
        exact_mod_cast hT
      have h1 : (st.sent_count : ℚ)
          / ((st.sent_count + st.deferred_count + st.bounced_count : ℕ) : ℚ) ≤ 1 :=
        div_le_one_of_le₀ hle (le_of_lt hpos)
      calc (st.sent_count : ℚ)
            / ((st.sent_count + st.deferred_count + st.bounced_count : ℕ) : ℚ) * 100
          ≤ 1 * 100 := mul_le_mul_of_nonneg_right h1 (by norm_num)
        _ = 100 := by norm_num
    · norm_num

/-- Witness for C1: the empty source list runs to completion and the
invariant holds on its output. -/
theorem claim_C1_witness :
    (runPure defaultThresholds true [] "2025-01-01" "2024-12-02" [] []).summary.sent_count
        + (runPure defaultThresholds true [] "2025-01-01" "2024-12-02" [] []).summary.deferred_count
        + (runPure defaultThresholds true [] "2025-01-01" "2024-12-02" [] []).summary.bounced_count
        = (runPure defaultThresholds true [] "2025-01-01" "2024-12-02" [] []).summary.total_messages
      ∧ 0 ≤ (runPure defaultThresholds true [] "2025-01-01" "2024-12-02" [] []).summary.success_rate
      ∧ (runPure defaultThresholds true [] "2025-01-01" "2024-12-02" [] []).summary.success_rate ≤ 100 :=
  claim_C1 defaultThresholds true [] "2025-01-01" "2024-12-31" "2025-01-01" "2024-12-02" [] _ rfl

/-! ### Claim C2 -/

/-- C2: in every run with `total_messages = 0`, both `success_rate` and
`avg_queue_time` are `0` (their guarded formulas never divide). -/
theorem claim_C2 (thr : Thresholds) (hvm : Bool) (history : History)
    (today yesterday tk ck : String) (files : List FileData) (out : RunOutput)
    (h : runEngine thr hvm history today yesterday tk ck files = .ok out)
    (h0 : out.summary.total_messages = 0) :
    out.summary.success_rate = 0 ∧ out.summary.avg_queue_time = 0 := by
  obtain ⟨lines, -, rfl⟩ := runEngine_ok _ _ _ _ _ _ _ _ _ h
  rw [runPure_summary] at h0 ⊢
  rw [mkSummary_total_messages] at h0
  constructor
  · rw [mkSummary_success_rate]
    exact if_neg (by omega)
  · rw [mkSummary_avg_queue_time]
    have hq : (lines.foldl
        (processLine (lines.foldl processLine1 initP1).message_sizes) initP2).queue_times
        = initP2.queue_times := by
      apply foldl_queue_times_of_sent_eq
      show _ = (0 : ℕ)
      omega
    rw [hq]
    rfl

/-- Witness for C2: the empty source list yields `total_messages = 0` and
both derived scalars are `0`. -/
theorem claim_C2_witness :
    (runPure defaultThresholds true [] "2025-01-01" "2024-12-02" [] []).summary.success_rate = 0
      ∧ (runPure defaultThresholds true [] "2025-01-01" "2024-12-02" [] []).summary.avg_queue_time = 0 :=
  claim_C2 defaultThresholds true [] "2025-01-01" "2024-12-31" "2025-01-01" "2024-12-02" [] _
    rfl rfl

/-! ### Claim C3 -/

theorem readAll_missing (t y : String) :
    ∀ fs gs : List FileData,
      readAll t y (fs ++ FileData.missing :: gs) = readAll t y (fs ++ gs) := by
  intro fs
  induction fs with
  | nil =>
    intro gs
    show readAll t y (FileData.missing :: gs) = readAll t y gs
    cases h : readAll t y gs <;> simp [readAll, log_lines_today, h]
  | cons f fs ih =>
    intro gs
    simp only [List.cons_append, readAll, List.append_eq]
    rw [ih gs]

theorem readAll_ioError (t y : String) :
    ∀ fs gs : List FileData,
      readAll t y (fs ++ FileData.ioError :: gs) = .error ReadErr.sourceReadError := by
  intro fs
  induction fs with
  | nil => intro gs; rfl
  | cons f fs ih =>
    intro gs
    simp only [List.cons_append, readAll, List.append_eq]
    cases h1 : log_lines_today f t with
    | error e => cases e; rfl
    | ok l1 =>
      cases h2 : log_lines_today f y with
      | error e => cases e; rfl
      | ok l2 => rw [ih gs]

/-- C3 counterexample: an I/O failure (other than a missing file) on the
first source aborts the whole run — the follow-up file holding a sent
line is never processed, so the failure is not "fatal only for that
file". -/
theorem claim_C3_counterexample :
    runEngine defaultThresholds true [] "2025-01-01" "2024-12-31" "2025-01-01" "2024-12-02"
        [FileData.ioError,
         FileData.content [{ dateStr := "2025-01-01", statusSent := true }]]
      = .error ReadErr.sourceReadError := rfl

/-- C3 amended: a missing source file is silently skipped and processing
continues with the remaining files; but any other I/O failure is fatal
to the entire run — `main` installs no handler, so no remaining file is
processed and no output is produced. -/
theorem claim_C3_amended (thr : Thresholds) (hvm : Bool) (history : History)
    (today yesterday tk ck : String) :
    (∀ fs gs : List FileData,
        runEngine thr hvm history today yesterday tk ck (fs ++ FileData.missing :: gs)
          = runEngine thr hvm history today yesterday tk ck (fs ++ gs))
      ∧ (∀ fs gs : List FileData,
        runEngine thr hvm history today yesterday tk ck (fs ++ FileData.ioError :: gs)
          = .error ReadErr.sourceReadError) := by
  constructor
  · intro fs gs
    unfold runEngine
    rw [readAll_missing]
  · intro fs gs
    unfold runEngine
    rw [readAll_ioError]

/-! ### Claim C4 -/

/-- C4: every date key retained by `save_historical_data` is at or after
the 30-day cutoff key (`cutoff` is `now - 30 days` rendered `YYYY-MM-DD`;
`strLe` is Python's string comparison, which on such keys is
chronological order). -/
theorem claim_C4 (todayKey cutoff : String) (history : History)
    (today_stats : List (String × ℚ)) (k : String)
    (hk : k ∈ (save_historical_data todayKey cutoff history today_stats).map (·.1)) :
    strLe cutoff k = true := by
  unfold save_historical_data at hk
  simp only [List.mem_map] at hk
  obtain ⟨p, hp, rfl⟩ := hk
  exact (List.mem_filter.mp hp).2

/-- Witness for C4: saving into an empty history retains today's key,
which is at or after the cutoff. -/
theorem claim_C4_witness : strLe "2024-12-02" "2025-01-01" = true :=
  claim_C4 "2025-01-01" "2024-12-02" [] [] "2025-01-01" (by decide)

/-! ### Claim C5 -/

theorem trendFor_dir (vs : List ℚ) (t : Trend) (h : trendFor vs = some t) :
    t.direction = dirOf t.percentage := by
  simp only [trendFor] at h
  split at h
  all_goals try split at h
  all_goals try split at h
  all_goals first
    | (injection h with h; subst h; rfl)
    | exact absurd h (by simp)

theorem dirOf_up_iff (p : ℚ) : dirOf p = Direction.up ↔ p > 5 := by
  unfold dirOf
  split_ifs with h1 h2 <;> simp_all

theorem dirOf_down_iff (p : ℚ) : dirOf p = Direction.down ↔ p < -5 := by
  unfold dirOf
  split_ifs with h1 h2
  · have h3 : ¬ p < -5 := by linarith
    simp [h3]
  · simp [h2]
  · simp [h2]

/-- C5: every trend the trend engine produces has direction `up` exactly
when its percentage is strictly above `5`, `down` exactly when strictly
below `-5`, and `flat` otherwise — in particular at exactly `5` or `-5`
the direction is `flat`. -/
theorem claim_C5 (history : History) (metric : String) (t : Trend)
    (h : (metric, t) ∈ calculate_trends history) :
    (t.direction = Direction.up ↔ t.percentage > 5)
      ∧ (t.direction = Direction.down ↔ t.percentage < -5)
      ∧ (t.percentage = 5 → t.direction = Direction.flat)
      ∧ (t.percentage = -5 → t.direction = Direction.flat) := by
  have hdir : t.direction = dirOf t.percentage := by
    simp only [calculate_trends] at h
    split at h
    · exact absurd h (by simp)
    · split at h
      · exact absurd h (by simp)
      · rw [List.mem_filterMap] at h
        obtain ⟨m, _, hmap⟩ := h
        rw [Option.map_eq_some'] at hmap
        obtain ⟨tr, htr, heq⟩ := hmap
        have ht : tr = t := congrArg Prod.snd heq
        subst ht
        exact trendFor_dir _ _ htr
  refine ⟨?_, ?_, ?_, ?_⟩
  · rw [hdir]; exact dirOf_up_iff _
  · rw [hdir]; exact dirOf_down_iff _
  · intro hp; rw [hdir]; unfold dirOf; rw [hp]; norm_num
  · intro hp; rw [hdir]; unfold dirOf; rw [hp]; norm_num

/-- Witness for C5: a two-day history with sent counts `1` then `3`
produces the trend `(up, 100%, recent 2, baseline 1)`, on which the
boundary characterisation holds. -/
theorem claim_C5_witness :
    ((Trend.mk Direction.up 100 2 1).direction = Direction.up
        ↔ (Trend.mk Direction.up 100 2 1).percentage > 5)
      ∧ ((Trend.mk Direction.up 100 2 1).direction = Direction.down
        ↔ (Trend.mk Direction.up 100 2 1).percentage < -5)
      ∧ ((Trend.mk Direction.up 100 2 1).percentage = 5
        → (Trend.mk Direction.up 100 2 1).direction = Direction.flat)
      ∧ ((Trend.mk Direction.up 100 2 1).percentage = -5
        → (Trend.mk Direction.up 100 2 1).direction = Direction.flat) :=
  claim_C5 [("a", [("sent_count", (1 : ℚ))]), ("b", [("sent_count", (3 : ℚ))])]
    "sent_count" (Trend.mk Direction.up 100 2 1) (by
      have step : calculate_trends
          [("a", [("sent_count", (1 : ℚ))]), ("b", [("sent_count", (3 : ℚ))])]
          = trendMetrics.filterMap (fun metric =>
              (trendFor (List.filterMap (fun d =>
                match lookupA d
                    [("a", [("sent_count", (1 : ℚ))]), ("b", [("sent_count", (3 : ℚ))])] with
                | some m => lookupA metric m
                | none => none) ["a", "b"])).map (fun t => (metric, t))) := rfl
      have v1 : List.filterMap (fun d =>
          match lookupA d
              [("a", [("sent_count", (1 : ℚ))]), ("b", [("sent_count", (3 : ℚ))])] with
          | some m => lookupA "sent_count" m
          | none => none) ["a", "b"] = [(1 : ℚ), 3] := rfl
      have htf : trendFor [(1 : ℚ), 3] = some (Trend.mk Direction.up 100 2 1) := by
        unfold trendFor mean dirOf
        norm_num
      rw [step]
      refine List.mem_filterMap.mpr ⟨"sent_count", by simp [trendMetrics], ?_⟩
      show (trendFor (List.filterMap (fun d =>
          match lookupA d
              [("a", [("sent_count", (1 : ℚ))]), ("b", [("sent_count", (3 : ℚ))])] with
          | some m => lookupA "sent_count" m
          | none => none) ["a", "b"])).map (fun t => ("sent_count", t))
        = some ("sent_count", Trend.mk Direction.up 100 2 1)
      rw [v1, htf]
      rfl)

/-! ### Claim C6 -/

theorem mailLoopCheck_isSome (s r : String) (d : ℚ) :
    (mailLoopCheck s r d).isSome = true
      ↔ d < 1/10 ∧ (s = r ∨ (get_domain s = get_domain r ∧ get_domain s = internalDomain)) := by
  unfold mailLoopCheck
  split_ifs with h1 h2 h3
  · exact iff_of_true rfl ⟨h1, Or.inl h2⟩
  · exact iff_of_true rfl ⟨h1, Or.inr h3⟩
  · refine iff_of_false (by simp) ?_
    rintro ⟨-, h | h⟩
    · exact h2 h
    · exact h3 h
  · refine iff_of_false (by simp) ?_
    rintro ⟨hd, -⟩
    exact h1 hd

/-- C6: on every classified sent line carrying a parsable sender,
recipient and delay, a mail-loop entry is appended exactly when the
delay is below `0.1` and either sender equals recipient or both domains
equal the configured internal domain; when the internal-domain arm fires
the entry reads `Internal loop: <sender> → <recipient>`. -/
theorem claim_C6 (z : List (String × ℕ)) (st : P2State) (l : RawLine)
    (s r : String) (d : ℚ) (hsent : l.statusSent = true)
    (hsm : l.sender = some s) (hrm : l.recipient = some r) (hd : l.delay = some d) :
    ((processLine z st l).mail_loops.length = st.mail_loops.length + 1
        ↔ d < 1/10 ∧ (s = r ∨ (get_domain s = get_domain r ∧ get_domain s = internalDomain)))
      ∧ (d < 1/10 → s ≠ r → get_domain s = get_domain r → get_domain s = internalDomain →
          (processLine z st l).mail_loops
            = st.mail_loops ++ ["Internal loop: " ++ s ++ " → " ++ r]) := by
  have hml : (processLine z st l).mail_loops
      = st.mail_loops ++ (mailLoopCheck s r d).toList := by
    unfold processLine
    rw [if_pos hsent]
    exact processSent_mail_loops z st l s r d hsm hrm hd
  constructor
  · rw [hml, List.length_append, ← mailLoopCheck_isSome s r d]
    cases mailLoopCheck s r d <;> simp
  · intro h1 h2 h3 h4
    rw [hml]
    unfold mailLoopCheck
    rw [if_pos h1, if_neg h2, if_pos ⟨h3, h4⟩]
    rfl

/-- Witness for C6: a sent line with delay `0.05` from `a@eusd.org` to
`b@eusd.org` (the internal domain) — the characterisation holds at this
input. -/
theorem claim_C6_witness :
    ((processLine [] initP2
        { dateStr := "2025-01-01", statusSent := true, sender := some "a@eusd.org",
          recipient := some "b@eusd.org", delay := some (1/20) }).mail_loops.length
          = initP2.mail_loops.length + 1
        ↔ (1/20 : ℚ) < 1/10
          ∧ ("a@eusd.org" = "b@eusd.org"
            ∨ (get_domain "a@eusd.org" = get_domain "b@eusd.org"
                ∧ get_domain "a@eusd.org" = internalDomain)))
      ∧ ((1/20 : ℚ) < 1/10 → "a@eusd.org" ≠ "b@eusd.org"
          → get_domain "a@eusd.org" = get_domain "b@eusd.org"
          → get_domain "a@eusd.org" = internalDomain
          → (processLine [] initP2
              { dateStr := "2025-01-01", statusSent := true, sender := some "a@eusd.org",
                recipient := some "b@eusd.org", delay := some (1/20) }).mail_loops
            = initP2.mail_loops ++ ["Internal loop: " ++ "a@eusd.org" ++ " → " ++ "b@eusd.org"]) :=
  claim_C6 [] initP2
    { dateStr := "2025-01-01", statusSent := true, sender := some "a@eusd.org",
      recipient := some "b@eusd.org", delay := some (1/20) }
    "a@eusd.org" "b@eusd.org" (1/20) rfl rfl rfl rfl

/-! ### Claim C7 -/

/-- C7 counterexample: the sender `x@eusd.org.evil.com` does not belong
to the internal domain (its domain is `eusd.org.evil.com`), yet the code
flags it, because the check is the substring test
`"@eusd.org" in sender`, not domain membership. -/
theorem claim_C7_counterexample :
    "x@eusd.org.evil.com"
        ∈ compromisedCandidates (1/20) 0 [("x@eusd.org.evil.com", 100)]
      ∧ get_domain "x@eusd.org.evil.com" ≠ internalDomain := by
  constructor
  · unfold compromisedCandidates
    refine List.mem_map.mpr ⟨("x@eusd.org.evil.com", 100), List.mem_filter.mpr ⟨by simp, ?_⟩, rfl⟩
    rw [Bool.and_eq_true, decide_eq_true_eq]
    refine ⟨?_, by decide⟩
    norm_num
  · decide

/-- C7 amended: a sender is flagged iff its sent count strictly exceeds
`max(50, total_messages * configured_fraction)` and its address contains
`"@eusd.org"` as a substring (the Python `in` test — not membership in
the internal domain). -/
theorem claim_C7_amended (pct : ℚ) (total_messages : ℕ)
    (susp : List (String × ℕ)) (s : String) :
    s ∈ compromisedCandidates pct total_messages susp
      ↔ ∃ c : ℕ, (s, c) ∈ susp
          ∧ max (50 : ℚ) ((total_messages : ℚ) * pct) < (c : ℚ)
          ∧ strHasSub s "@eusd.org" = true := by
  unfold compromisedCandidates
  simp only [List.mem_map, List.mem_filter, Bool.and_eq_true, decide_eq_true_eq]
  constructor
  · rintro ⟨⟨a, c⟩, ⟨hmem, hthr, hsub⟩, rfl⟩
    exact ⟨c, hmem, hthr, hsub⟩
  · rintro ⟨c, hmem, hthr, hsub⟩
    exact ⟨(s, c), ⟨hmem, hthr, hsub⟩, rfl⟩

/-! ### Claim C8 -/

/-- C8 counterexample: with a zero-length source list the run does not
abort — there is no configuration validation anywhere in `main`; both
pass loops simply iterate zero times. -/
theorem claim_C8_counterexample :
    runEngine defaultThresholds true [] "2025-01-01" "2024-12-31" "2025-01-01" "2024-12-02" []
      ≠ Except.error ReadErr.sourceReadError := by
  simp [runEngine, readAll]

/-- C8 amended: a zero-length source list is not rejected; the run
completes normally, with both passes processing no lines, every status
counter zero, and an empty error list. -/
theorem claim_C8_amended (thr : Thresholds) (hvm : Bool) (history : History)
    (today yesterday tk ck : String) :
    ∃ out : RunOutput,
      runEngine thr hvm history today yesterday tk ck [] = .ok out
        ∧ out.summary.sent_count = 0 ∧ out.summary.deferred_count = 0
        ∧ out.summary.bounced_count = 0 ∧ out.summary.total_messages = 0
        ∧ out.summary.errors = [] :=
  ⟨runPure thr hvm history tk ck [] [], rfl, rfl, rfl, rfl, rfl, rfl⟩

/-! ### Claim C9 -/

theorem countP_replicate_of_true {α : Type} {p : α → Bool} {a : α} (h : p a = true) :
    ∀ n : ℕ, (List.replicate n a).countP p = n := by
  intro n
  induction n with
  | zero => simp
  | succ n ih => simp [List.replicate_succ, List.countP_cons, ih, h]

theorem filter_replicate_of_true {α : Type} {p : α → Bool} {a : α} (h : p a = true) :
    ∀ n : ℕ, (List.replicate n a).filter p = List.replicate n a := by
  intro n
  induction n with
  | zero => simp
  | succ n ih => simp [List.replicate_succ, List.filter_cons, ih, h]

theorem filter_replicate_of_false {α : Type} {p : α → Bool} {a : α} (h : p a = false) :
    ∀ n : ℕ, (List.replicate n a).filter p = [] := by
  intro n
  induction n with
  | zero => simp
  | succ n ih => simp [List.replicate_succ, List.filter_cons, ih, h]

/-- C9 counterexample: no constant bounds the retained `errors` list —
for any proposed bound `B`, a log holding `B + 1` deferred lines drives
the list past it.  (`errors.append` runs once per deferred or bounced
line and nothing ever truncates the list; only report rendering shows
the last ten.) -/
theorem claim_C9_counterexample :
    ¬ ∃ B : ℕ, ∀ (files : List FileData) (out : RunOutput),
        runEngine defaultThresholds true [] "2025-01-01" "2024-12-31" "2025-01-01" "2024-12-02"
            files = .ok out →
          out.summary.errors.length ≤ B := by
  rintro ⟨B, hB⟩
  have hpt : (fun l : RawLine => decide (l.dateStr = "2025-01-01"))
      { dateStr := "2025-01-01", statusDeferred := true, text := "err" } = true := by decide
  have hpy : (fun l : RawLine => decide (l.dateStr = "2024-12-31"))
      { dateStr := "2025-01-01", statusDeferred := true, text := "err" } = false := by decide
  have hread : readAll "2025-01-01" "2024-12-31"
      [FileData.content (List.replicate (B + 1)
        { dateStr := "2025-01-01", statusDeferred := true, text := "err" })]
      = .ok (List.replicate (B + 1)
        { dateStr := "2025-01-01", statusDeferred := true, text := "err" }) := by
    simp only [readAll, log_lines_today, filter_replicate_of_true hpt,
      filter_replicate_of_false hpy]
    simp
  have hrun : runEngine defaultThresholds true [] "2025-01-01" "2024-12-31" "2025-01-01"
      "2024-12-02"
      [FileData.content (List.replicate (B + 1)
        { dateStr := "2025-01-01", statusDeferred := true, text := "err" })]
      = .ok (runPure defaultThresholds true [] "2025-01-01" "2024-12-02"
          (List.replicate (B + 1)
            { dateStr := "2025-01-01", statusDeferred := true, text := "err" })
          (List.replicate (B + 1)
            { dateStr := "2025-01-01", statusDeferred := true, text := "err" })) := by
    unfold runEngine
    rw [hread]
  have hlen := hB _ _ hrun
  rw [runPure_summary, mkSummary_errors, foldl_errors_length] at hlen
  rw [countP_replicate_of_true (by decide) (B + 1)] at hlen
  simp [initP2] at hlen

/-- C9 amended: the retained raw-error store is unbounded — the `errors`
list grows by exactly one entry per line classified deferred or
bounced/rejected, with no cap (only the report rendering truncates to
the trailing ten entries). -/
theorem claim_C9_amended (z : List (String × ℕ)) (lines : List RawLine) (st : P2State) :
    ((lines.foldl (processLine z) st).errors).length
      = st.errors.length + lines.countP errLine :=
  foldl_errors_length z lines st

/-! ### Claim C10 -/

/-- C10: the engine's output — alerts, snapshot, persisted history — is
identical for any two configurations differing only in
`min_hourly_volume`: that threshold is configured but never read. -/
theorem claim_C10 (thr : Thresholds) (v v' : ℕ) (hvm : Bool) (history : History)
    (today yesterday tk ck : String) (files : List FileData) :
    runEngine { thr with min_hourly_volume := v } hvm history today yesterday tk ck files
      = runEngine { thr with min_hourly_volume := v' } hvm history today yesterday tk ck files := by
  cases thr
  rfl

end MailSummary
